import Mathlib

/-!
Verification of the access-enforcement reconciliation core of the
saas-network-control repository, as a shallow embedding of the JavaScript
source (src/backend/utils/networkControl.js, src/backend/routes/billing.js,
src/backend/routes/clients.js, src/backend/server.js) in Lean 4.

Instants are modelled as integers (millisecond timestamps); the remote
device holding the iptables rules is modelled explicitly, since the code's
behaviour depends on the device's replies (exit codes) and on connection
failures of the ssh channel.
-/

namespace NCS

/-! ## Remote device model

`executeSSHCommand` opens one ssh session per call and runs one command;
the promise resolves with the command's exit code, or rejects on a
connection-level failure.  The device is modelled as the number of
installed copies of the block rule for the one key under consideration
(iptables `-A` appends, so duplicates can accumulate), a flag saying
whether mutating commands succeed on the device, and a per-command
schedule of connection outages (`outages.headD false` tells whether the
next ssh session fails to connect; entries are consumed one per command).
-/

structure Device where
  ruleCount : Nat
  applyOk : Bool
  outages : List Bool
  deriving DecidableEq, Repr

/-- The three command templates of networkControl.js: existence check
(`iptables -C`), add rule (`iptables -A`), delete rule (`iptables -D`). -/
inductive Cmd where
  | check
  | add
  | del
  deriving DecidableEq, Repr

/-- Outcome of one `executeSSHCommand` call: the promise resolves with the
exit code, or rejects (connection error / exec error). -/
inductive ExecOutcome where
  | ok (code : Int)
  | err
  deriving DecidableEq, Repr

/-- One ssh session running one command against the device.  `-C` exits 0
iff the rule is present; `-A` appends a copy (exit 0) when the device
accepts mutations; `-D` removes one copy (exit 0) if present, else exits
non-zero. A scheduled outage makes the session fail before the command
runs remotely. -/
def execCmd (d : Device) (c : Cmd) : ExecOutcome × Device :=
  let down := d.outages.headD false
  let d1 : Device := Device.mk d.ruleCount d.applyOk d.outages.tail
  if down then (ExecOutcome.err, d1)
  else
    match c with
    | Cmd.check => (ExecOutcome.ok (if d1.ruleCount > 0 then 0 else 1), d1)
    | Cmd.add =>
        if d1.applyOk then (ExecOutcome.ok 0, Device.mk (d1.ruleCount + 1) d1.applyOk d1.outages)
        else (ExecOutcome.ok 1, d1)
    | Cmd.del =>
        if d1.applyOk && decide (d1.ruleCount > 0) then
          (ExecOutcome.ok 0, Device.mk (d1.ruleCount - 1) d1.applyOk d1.outages)
        else (ExecOutcome.ok 1, d1)

/-! ## networkControl.js -/

/-- Result of a networkControl operation: either the operation returned
normally with the device in a new state, or the underlying
`executeSSHCommand` promise rejected and the exception propagates to the
caller (the device state is carried alongside for the semantics). -/
inductive NetResult where
  | ok (d : Device)
  | connError (d : Device)
  deriving DecidableEq, Repr

/-- `ruleExists(ip, clientId)`: runs the `-C` check and returns
`result.code === 0`; the `catch` clause turns ANY error (including a
connection failure) into `false`. -/
def ruleExists (d : Device) : Bool × Device :=
  match execCmd d Cmd.check with
  | (ExecOutcome.ok code, d1) => (code == 0, d1)
  | (ExecOutcome.err, d1) => (false, d1)

/-- `addBlockRule(ip, clientId)`: awaits the `-A` command and ignores its
exit code entirely; only a rejected promise (connection failure)
escapes as an exception. -/
def addBlockRule (d : Device) : NetResult :=
  match execCmd d Cmd.add with
  | (ExecOutcome.ok _, d1) => NetResult.ok d1
  | (ExecOutcome.err, d1) => NetResult.connError d1

/-- `deleteBlockRule(ip, clientId)`: awaits the `-D` command and ignores
its exit code entirely; only a rejected promise escapes. -/
def deleteBlockRule (d : Device) : NetResult :=
  match execCmd d Cmd.del with
  | (ExecOutcome.ok _, d1) => NetResult.ok d1
  | (ExecOutcome.err, d1) => NetResult.connError d1

/-- `blockClient`: add the block rule, then log. -/
def blockClient (d : Device) : NetResult := addBlockRule d

/-- `unblockClient`: delete the block rule, then log. -/
def unblockClient (d : Device) : NetResult := deleteBlockRule d

/-- The reconciliation-relevant projection of a Client record
(models/Client.js): the schema has no subscription start date. -/
structure Client where
  ipAddress : String
  clientId : String
  subscriptionEndDate : Int
  deriving DecidableEq, Repr

/-- `const shouldBlock = client.subscriptionEndDate < now;` -/
def shouldBlock (c : Client) (now : Int) : Bool :=
  decide (c.subscriptionEndDate < now)

/-- What a `setNetworkAccess` call did. -/
inductive Action where
  | blocked
  | unblocked
  | noop
  deriving DecidableEq, Repr

/-- Result of `setNetworkAccess`: either it returned normally, having
performed the recorded action, or an exception from an ssh call
propagated to the caller. -/
inductive SetResult where
  | ok (a : Action) (d : Device)
  | connError (d : Device)
  deriving DecidableEq, Repr

/-- `setNetworkAccess(client)`: compute `shouldBlock`, probe with
`ruleExists`, then add the rule if it should be blocked and the probe said
absent, delete it if it should not be blocked and the probe said present,
otherwise do nothing. -/
def setNetworkAccess (c : Client) (now : Int) (d : Device) : SetResult :=
  let sb := shouldBlock c now
  let probe := ruleExists d
  let ruleExistsCurrently := probe.1
  let d1 := probe.2
  if sb && !ruleExistsCurrently then
    match blockClient d1 with
    | NetResult.ok d2 => SetResult.ok Action.blocked d2
    | NetResult.connError d2 => SetResult.connError d2
  else if !sb && ruleExistsCurrently then
    match unblockClient d1 with
    | NetResult.ok d2 => SetResult.ok Action.unblocked d2
    | NetResult.connError d2 => SetResult.connError d2
  else SetResult.ok Action.noop d1

/-- Modelled from the spec: the desired-state rule of §3,
`blocked = now < subscriptionStart OR now ≥ subscriptionEnd`, stated over
a start instant, an end instant and the current instant.  (The code's
Client schema carries no start date at all; this definition follows the
spec's words, for comparison with `shouldBlock`.) -/
def specDesiredBlocked (subscriptionStart subscriptionEnd now : Int) : Bool :=
  decide (now < subscriptionStart) || decide (subscriptionEnd ≤ now)

/-! ## Command strings

networkControl.js builds the three ssh commands by template-literal
interpolation of `ip` and `clientId`; no validation or escaping of either
parameter occurs anywhere in the file. -/

/-- `iptables -C INPUT -s ${ip} -m comment --comment "block-${clientId}" -j DROP` -/
def checkCommand (ip clientId : String) : String :=
  "iptables -C INPUT -s " ++ (ip ++ (" -m comment --comment \"block-" ++ (clientId ++ "\" -j DROP")))

/-- `iptables -A INPUT -s ${ip} -m comment --comment "block-${clientId}" -j DROP` -/
def addCommand (ip clientId : String) : String :=
  "iptables -A INPUT -s " ++ (ip ++ (" -m comment --comment \"block-" ++ (clientId ++ "\" -j DROP")))

/-- `iptables -D INPUT -s ${ip} -m comment --comment "block-${clientId}" -j DROP` -/
def delCommand (ip clientId : String) : String :=
  "iptables -D INPUT -s " ++ (ip ++ (" -m comment --comment \"block-" ++ (clientId ++ "\" -j DROP")))

/-- Modelled from the spec: a character of the allow-listed
dotted-decimal/hex address syntax (§4.1). -/
def specAddrChar (ch : Char) : Bool :=
  ch.isDigit || (('a' ≤ ch && ch ≤ 'f') || (('A' ≤ ch && ch ≤ 'F') || (ch == '.' || ch == ':')))

/-- Modelled from the spec: the strict allow-list an address must pass
before being embedded in a command string (§4.1). -/
def specValidAddr (s : String) : Bool :=
  !s.isEmpty && s.data.all specAddrChar

/-- Modelled from the spec: the strict allow-list a subscriber identifier
must pass before being embedded in a command string (§4.1). -/
def specValidId (s : String) : Bool :=
  !s.isEmpty && s.data.all Char.isAlphanum

/-! ## routes/billing.js — the M-Pesa confirmation handler

State touched by `router.post('/mpesa/callback')`: the in-process
`pendingCheckouts` map (checkout request id → subscriber mongo id), the
subscriber collection, the service-plan collection, the billing
collection, and the remote device (through `unblockClient`). -/

inductive SubStatus where
  | active
  | inactive
  | pending
  deriving DecidableEq, Repr

/-- The confirmation-relevant projection of a Subscriber document
(models/Subscriber.js). `ipAddress` and `servicePlan` are optional in the
schema; the empty string models an unset field (falsy in the JS guards). -/
structure SubscriberRec where
  mongoId : String
  subscriberId : String
  ipAddress : String
  servicePlan : String
  subscriptionStartDate : Int
  subscriptionEndDate : Int
  status : SubStatus
  deriving DecidableEq, Repr

/-- The confirmation-relevant projection of a ServicePlan document. -/
structure Plan where
  planId : String
  durationInMonths : Nat
  deriving DecidableEq, Repr

/-- A Billing document as saved by the callback handler. -/
structure BillingRec where
  subscriber : String
  amount : Int
  transactionId : String
  deriving DecidableEq, Repr

/-- The fields of the M-Pesa callback body the handler reads:
`Body.stkCallback.ResultCode`, `Body.stkCallback.CheckoutRequestID`, and
the Amount / MpesaReceiptNumber metadata items. -/
structure CallbackInput where
  resultCode : Int
  checkoutRequestId : String
  amount : Int
  mpesaReceiptNumber : String
  deriving DecidableEq, Repr

/-- The application state the callback handler reads and writes. -/
structure AppState where
  pendingCheckouts : List (String × String)
  subscribers : List SubscriberRec
  plans : List Plan
  billings : List BillingRec
  dev : Device
  deriving DecidableEq, Repr

/-- The HTTP response the handler sends: the fixed acknowledgment
`res.json with ResultCode 0 / Acknowledged`, a `res.status(400).json`
rejection, or the catch clause's `res.status(500).json` with ResultCode 1. -/
inductive CbResponse where
  | ack
  | badRequest
  | serverError
  deriving DecidableEq, Repr

/-- `pendingCheckouts.get(checkoutRequestId)` -/
def lookupPending (l : List (String × String)) (k : String) : Option String :=
  (l.find? (fun e => e.1 == k)).map Prod.snd

/-- `pendingCheckouts.delete(checkoutRequestId)` -/
def removePending (l : List (String × String)) (k : String) : List (String × String) :=
  l.filter (fun e => !(e.1 == k))

/-- `Subscriber.findById(subscriberId)` -/
def findSubscriber (l : List SubscriberRec) (mid : String) : Option SubscriberRec :=
  l.find? (fun s => s.mongoId == mid)

/-- `ServicePlan.findById(subscriber.servicePlan)` -/
def findPlan (l : List Plan) (pid : String) : Option Plan :=
  l.find? (fun p => p.planId == pid)

/-- `await subscriber.save()` -/
def saveSubscriber (l : List SubscriberRec) (s : SubscriberRec) : List SubscriberRec :=
  l.map (fun t => if t.mongoId == s.mongoId then s else t)

/-- `router.post('/mpesa/callback')`, parameterised by the calendar
month-addition used by `Date.prototype.setMonth` and by the current
instant.  Control flow of the source, in order: a non-zero `ResultCode`
skips the whole success block and acknowledges; a missing
`pendingCheckouts` entry returns 400 before anything is written; the
billing record is saved; a failed subscriber lookup makes
`subscriber.status` throw, caught as a 500; a non-active subscriber with
no service plan returns 400 (after the billing save, without consuming
the pending entry); otherwise the window is rewritten and the subscriber
activated — note `subscriber.subscriptionStartDate = now` aliases the
very Date object that `now.setMonth(...)` then mutates in place, so the
saved start date equals the new end date, `now + duration` — then
`unblockClient` runs when an ipAddress is set (an ssh connection failure
there is caught as a 500, again without consuming the pending entry);
finally the pending entry is deleted and the fixed acknowledgment sent. -/
def mpesaCallback (addMonths : Int → Nat → Int) (now : Int)
    (inp : CallbackInput) (st : AppState) : CbResponse × AppState :=
  if inp.resultCode ≠ 0 then (CbResponse.ack, st)
  else
    match lookupPending st.pendingCheckouts inp.checkoutRequestId with
    | Option.none => (CbResponse.badRequest, st)
    | Option.some sid =>
      let st1 := AppState.mk st.pendingCheckouts st.subscribers st.plans
        (st.billings ++ [BillingRec.mk sid inp.amount inp.mpesaReceiptNumber]) st.dev
      match findSubscriber st1.subscribers sid with
      | Option.none => (CbResponse.serverError, st1)
      | Option.some sub =>
        if sub.status ≠ SubStatus.active then
          match findPlan st1.plans sub.servicePlan with
          | Option.none => (CbResponse.badRequest, st1)
          | Option.some plan =>
            let newEnd := addMonths now plan.durationInMonths
            let sub1 := SubscriberRec.mk sub.mongoId sub.subscriberId sub.ipAddress
              sub.servicePlan newEnd newEnd SubStatus.active
            let st2 := AppState.mk st1.pendingCheckouts
              (saveSubscriber st1.subscribers sub1) st1.plans st1.billings st1.dev
            if sub.ipAddress ≠ "" then
              match unblockClient st2.dev with
              | NetResult.ok d1 =>
                  (CbResponse.ack, AppState.mk
                    (removePending st2.pendingCheckouts inp.checkoutRequestId)
                    st2.subscribers st2.plans st2.billings d1)
              | NetResult.connError d1 =>
                  (CbResponse.serverError, AppState.mk st2.pendingCheckouts
                    st2.subscribers st2.plans st2.billings d1)
            else
              (CbResponse.ack, AppState.mk
                (removePending st2.pendingCheckouts inp.checkoutRequestId)
                st2.subscribers st2.plans st2.billings st2.dev)
        else
          (CbResponse.ack, AppState.mk
            (removePending st1.pendingCheckouts inp.checkoutRequestId)
            st1.subscribers st1.plans st1.billings st1.dev)

/-! ## routes/clients.js — subscriber deletion -/

/-- Response of the subscriber DELETE handler. -/
inductive DeleteResp where
  | ok
  | notFound
  | serverError
  deriving DecidableEq, Repr

/-- `router.delete('/:id')` of the subscribers router: look up the
subscriber; if it has an ipAddress, call `unblockClient` (an ssh failure
there is caught as a 500, before the record is deleted); then delete the
record.  The returned Bool says whether the record was removed.  (The
clients router's delete handler at clients.js:40-46 is the same shape,
calling `unblockClient` unconditionally.) -/
def deleteSubscriberHandler (s : Option SubscriberRec) (d : Device) :
    DeleteResp × Device × Bool :=
  match s with
  | Option.none => (DeleteResp.notFound, d, false)
  | Option.some sub =>
    if sub.ipAddress ≠ "" then
      match unblockClient d with
      | NetResult.ok d1 => (DeleteResp.ok, d1, true)
      | NetResult.connError d1 => (DeleteResp.serverError, d1, false)
    else (DeleteResp.ok, d, true)

/-- A concrete instantiation of calendar month addition (thirty-day
months), used to exercise the confirmation handler on closed inputs. -/
def linearAddMonths (t : Int) (m : Nat) : Int := t + 30 * (m : Int)

/-! ## Concurrent reconciliation

`setNetworkAccess` suspends at each `await`; the enforcement-relevant
suspension point is between the `ruleExists` probe and the
`blockClient`/`unblockClient` apply, where the node runtime may run
another task.  Each ssh command itself is atomic with respect to the
device.  A task is one in-flight `setNetworkAccess` call for the same
subscriber key; a schedule says which task performs its next atomic step. -/

inductive Phase where
  | start
  | probed (found : Bool)
  | finished (a : Action)
  | failed
  deriving DecidableEq, Repr

/-- One atomic step of an in-flight `setNetworkAccess` call: from `start`,
run the probe; from `probed`, run the decision and (at most one) apply
command; terminal phases do nothing. -/
def stepTask (c : Client) (now : Int) (p : Phase) (d : Device) : Phase × Device :=
  match p with
  | Phase.start =>
      let probe := ruleExists d
      (Phase.probed probe.1, probe.2)
  | Phase.probed f =>
      let sb := shouldBlock c now
      if sb && !f then
        match blockClient d with
        | NetResult.ok d1 => (Phase.finished Action.blocked, d1)
        | NetResult.connError d1 => (Phase.failed, d1)
      else if !sb && f then
        match unblockClient d with
        | NetResult.ok d1 => (Phase.finished Action.unblocked, d1)
        | NetResult.connError d1 => (Phase.failed, d1)
      else (Phase.finished Action.noop, d)
  | Phase.finished a => (Phase.finished a, d)
  | Phase.failed => (Phase.failed, d)

/-- Run two concurrent `setNetworkAccess` calls for the same subscriber
under a schedule: `false` steps the first task, `true` the second. -/
def runSched (c : Client) (now : Int) :
    List Bool → Phase × Phase × Device → Phase × Phase × Device
  | [], s => s
  | b :: rest, (p1, p2, d) =>
      if b then
        let st := stepTask c now p2 d
        runSched c now rest (p1, st.1, st.2)
      else
        let st := stepTask c now p1 d
        runSched c now rest (st.1, p2, st.2)

/-! ## Theorems -/

/-- Claim C1 (counterexample): a subscriber whose `subscriptionEndDate`
equals `now` exactly (end = now = 100) is blocked under the spec's
desired-state rule, but `setNetworkAccess` computes `shouldBlock = false`
and, with the rule absent on a healthy device, performs no action at all:
the boundary instant is treated as still active, contradicting the
claim. -/
theorem C1_counterexample :
    specDesiredBlocked 0 100 100 = true ∧
    shouldBlock (Client.mk "1.2.3.4" "c1" 100) 100 = false ∧
    setNetworkAccess (Client.mk "1.2.3.4" "c1" 100) 100 (Device.mk 0 true []) =
      SetResult.ok Action.noop (Device.mk 0 true []) := by
  decide

/-- Claim C1 (amended): the desired access state computed by a
reconciliation pass is blocked exactly when `subscriptionEndDate < now`
strictly; the subscription start date is never consulted (the Client
record carries none) and `now = subscriptionEndDate` counts as still
active.  On a healthy device holding at most one copy of the rule, a
single pass converges the rule's presence to that criterion. -/
theorem C1_blocked_iff_end_before_now (c : Client) (now : Int) (d : Device)
    (h1 : d.outages = []) (h2 : d.applyOk = true) (h3 : d.ruleCount ≤ 1) :
    ∃ a n, setNetworkAccess c now d = SetResult.ok a (Device.mk n true []) ∧
      (0 < n ↔ c.subscriptionEndDate < now) := by
  obtain ⟨cnt, aok, outs⟩ := d
  simp only at h1 h2 h3
  subst h1; subst h2
  interval_cases cnt
  · rcases Bool.eq_false_or_eq_true (shouldBlock c now) with hb | hb
    · refine ⟨Action.blocked, 1, ?_, ?_⟩
      · simp [setNetworkAccess, ruleExists, execCmd, blockClient, unblockClient,
          addBlockRule, deleteBlockRule, hb]
      · simp [shouldBlock] at hb
        simp [hb]
    · refine ⟨Action.noop, 0, ?_, ?_⟩
      · simp [setNetworkAccess, ruleExists, execCmd, blockClient, unblockClient,
          addBlockRule, deleteBlockRule, hb]
      · simp [shouldBlock] at hb
        simp [hb]
  · rcases Bool.eq_false_or_eq_true (shouldBlock c now) with hb | hb
    · refine ⟨Action.noop, 1, ?_, ?_⟩
      · simp [setNetworkAccess, ruleExists, execCmd, blockClient, unblockClient,
          addBlockRule, deleteBlockRule, hb]
      · simp [shouldBlock] at hb
        simp [hb]
    · refine ⟨Action.unblocked, 0, ?_, ?_⟩
      · simp [setNetworkAccess, ruleExists, execCmd, blockClient, unblockClient,
          addBlockRule, deleteBlockRule, hb]
      · simp [shouldBlock] at hb
        simp [hb]

/-- Claim C1 witness: the amended theorem applied to an expired
subscriber (end 50 < now 100) with an empty healthy device. -/
theorem C1_blocked_iff_end_before_now_witness :
    ∃ a n, setNetworkAccess (Client.mk "1.2.3.4" "c1" 50) 100 (Device.mk 0 true []) =
        SetResult.ok a (Device.mk n true []) ∧
      (0 < n ↔ (50 : Int) < 100) :=
  C1_blocked_iff_end_before_now (Client.mk "1.2.3.4" "c1" 50) 100 (Device.mk 0 true [])
    rfl rfl (by decide)

/-- Claim C2 (counterexample): the probe's ssh session fails (scheduled
outage), so the probe outcome is indeterminate; the rule is actually
present (one copy).  The call does not defer: `ruleExists` collapses the
failure to `false` ("rule absent"), and since the subscriber is expired
the call issues an add-block over the recovered channel, duplicating the
rule (count 1 → 2) and reporting a successful block. -/
theorem C2_counterexample :
    setNetworkAccess (Client.mk "1.2.3.4" "c1" 0) 100 (Device.mk 1 true [true]) =
      SetResult.ok Action.blocked (Device.mk 2 true []) := by
  decide

/-- Claim C2 (amended): a reconciliation call whose probe fails with a
connection error treats the indeterminate outcome as "rule absent": if
the desired state is blocked it proceeds to issue an add-block command
(mutating the remote device when the channel recovers), and if the
desired state is unblocked it returns as already converged; in neither
case is there a deferred outcome distinguishable from normal
completion. -/
theorem C2_indeterminate_treated_as_absent (c : Client) (now : Int) (d : Device)
    (hout : d.outages = [true]) (hok : d.applyOk = true) :
    (shouldBlock c now = true →
      setNetworkAccess c now d =
        SetResult.ok Action.blocked (Device.mk (d.ruleCount + 1) true [])) ∧
    (shouldBlock c now = false →
      setNetworkAccess c now d =
        SetResult.ok Action.noop (Device.mk d.ruleCount true [])) := by
  obtain ⟨cnt, aok, outs⟩ := d
  simp only at hout hok
  subst hout; subst hok
  constructor <;> intro hb <;>
    simp [setNetworkAccess, ruleExists, execCmd, blockClient, unblockClient,
      addBlockRule, deleteBlockRule, hb]

/-- Claim C2 witness: the amended theorem applied to an expired
subscriber whose rule is present, with the probe's session scheduled to
fail. -/
theorem C2_indeterminate_treated_as_absent_witness :
    setNetworkAccess (Client.mk "1.2.3.4" "c1" 0) 100 (Device.mk 1 true [true]) =
      SetResult.ok Action.blocked (Device.mk 2 true []) :=
  (C2_indeterminate_treated_as_absent (Client.mk "1.2.3.4" "c1" 0) 100
    (Device.mk 1 true [true]) rfl rfl).1 (by decide)

/-- Claim C3 (confirmed): on a healthy device (no connection outages,
mutations accepted) holding at most one copy of the rule, a
reconciliation pass succeeds, changes the rule count by at most one (a
single corrective command, add or remove, never both — the returned
action is a single constructor), and an immediately repeated pass with no
intervening external change returns `noop` and leaves the device exactly
as the first pass left it. -/
theorem C3_reconcile_idempotent (c : Client) (now : Int) (d : Device)
    (h1 : d.outages = []) (h2 : d.applyOk = true) (h3 : d.ruleCount ≤ 1) :
    ∃ a d1, setNetworkAccess c now d = SetResult.ok a d1 ∧
      setNetworkAccess c now d1 = SetResult.ok Action.noop d1 ∧
      d1.ruleCount ≤ d.ruleCount + 1 ∧ d.ruleCount ≤ d1.ruleCount + 1 := by
  obtain ⟨cnt, aok, outs⟩ := d
  simp only at h1 h2 h3
  subst h1; subst h2
  interval_cases cnt
  · rcases Bool.eq_false_or_eq_true (shouldBlock c now) with hb | hb
    · exact ⟨Action.blocked, Device.mk 1 true [],
        by simp [setNetworkAccess, ruleExists, execCmd, blockClient, unblockClient,
          addBlockRule, deleteBlockRule, hb],
        by simp [setNetworkAccess, ruleExists, execCmd, blockClient, unblockClient,
          addBlockRule, deleteBlockRule, hb],
        by decide, by decide⟩
    · exact ⟨Action.noop, Device.mk 0 true [],
        by simp [setNetworkAccess, ruleExists, execCmd, blockClient, unblockClient,
          addBlockRule, deleteBlockRule, hb],
        by simp [setNetworkAccess, ruleExists, execCmd, blockClient, unblockClient,
          addBlockRule, deleteBlockRule, hb],
        by decide, by decide⟩
  · rcases Bool.eq_false_or_eq_true (shouldBlock c now) with hb | hb
    · exact ⟨Action.noop, Device.mk 1 true [],
        by simp [setNetworkAccess, ruleExists, execCmd, blockClient, unblockClient,
          addBlockRule, deleteBlockRule, hb],
        by simp [setNetworkAccess, ruleExists, execCmd, blockClient, unblockClient,
          addBlockRule, deleteBlockRule, hb],
        by decide, by decide⟩
    · exact ⟨Action.unblocked, Device.mk 0 true [],
        by simp [setNetworkAccess, ruleExists, execCmd, blockClient, unblockClient,
          addBlockRule, deleteBlockRule, hb],
        by simp [setNetworkAccess, ruleExists, execCmd, blockClient, unblockClient,
          addBlockRule, deleteBlockRule, hb],
        by decide, by decide⟩

/-- Claim C3 witness: the theorem applied to an expired subscriber with
an empty healthy device (the first pass blocks, the second is a noop). -/
theorem C3_reconcile_idempotent_witness :
    ∃ a d1, setNetworkAccess (Client.mk "1.2.3.4" "c1" 0) 100 (Device.mk 0 true []) =
        SetResult.ok a d1 ∧
      setNetworkAccess (Client.mk "1.2.3.4" "c1" 0) 100 d1 = SetResult.ok Action.noop d1 ∧
      d1.ruleCount ≤ (Device.mk 0 true []).ruleCount + 1 ∧
      (Device.mk 0 true []).ruleCount ≤ d1.ruleCount + 1 :=
  C3_reconcile_idempotent (Client.mk "1.2.3.4" "c1" 0) 100 (Device.mk 0 true [])
    rfl rfl (by decide)

/-- Claim C7 (counterexample): the device rejects mutations (the add
command executes and exits non-zero), yet `setNetworkAccess` on an
expired subscriber with the rule absent reports a successful block and
returns normally — the rule count stays 0 and no enforcement-failure
error is surfaced. -/
theorem C7_counterexample :
    setNetworkAccess (Client.mk "1.2.3.4" "c1" 0) 100 (Device.mk 0 false []) =
      SetResult.ok Action.blocked (Device.mk 0 false []) := by
  decide

/-- Claim C7 (amended): `addBlockRule` and `deleteBlockRule` ignore the
exit status of the command entirely, so when every apply command executes
but reports non-zero, every reconciliation call still completes normally
with the remote state unchanged; a failed apply is silently
indistinguishable from success, and only connection-level failures would
surface as errors. -/
theorem C7_apply_failure_silent (c : Client) (now : Int) (d : Device)
    (h1 : d.outages = []) (h2 : d.applyOk = false) :
    ∃ a, setNetworkAccess c now d = SetResult.ok a (Device.mk d.ruleCount false []) := by
  obtain ⟨cnt, aok, outs⟩ := d
  simp only at h1 h2
  subst h1; subst h2
  cases cnt with
  | zero =>
    rcases Bool.eq_false_or_eq_true (shouldBlock c now) with hb | hb
    · exact ⟨Action.blocked,
        by simp [setNetworkAccess, ruleExists, execCmd, blockClient, unblockClient,
          addBlockRule, deleteBlockRule, hb]⟩
    · exact ⟨Action.noop,
        by simp [setNetworkAccess, ruleExists, execCmd, blockClient, unblockClient,
          addBlockRule, deleteBlockRule, hb]⟩
  | succ n =>
    rcases Bool.eq_false_or_eq_true (shouldBlock c now) with hb | hb
    · exact ⟨Action.noop,
        by simp [setNetworkAccess, ruleExists, execCmd, blockClient, unblockClient,
          addBlockRule, deleteBlockRule, hb]⟩
    · exact ⟨Action.unblocked,
        by simp [setNetworkAccess, ruleExists, execCmd, blockClient, unblockClient,
          addBlockRule, deleteBlockRule, hb]⟩

/-- Claim C7 witness: the amended theorem applied to an expired
subscriber with the rule absent on a mutation-rejecting device. -/
theorem C7_apply_failure_silent_witness :
    ∃ a, setNetworkAccess (Client.mk "1.2.3.4" "c1" 0) 100 (Device.mk 0 false []) =
      SetResult.ok a (Device.mk (Device.mk 0 false []).ruleCount false []) :=
  C7_apply_failure_silent (Client.mk "1.2.3.4" "c1" 0) 100 (Device.mk 0 false []) rfl rfl

/-- After `pendingCheckouts.delete(k)`, looking up `k` finds nothing. -/
theorem lookupPending_removePending (l : List (String × String)) (k : String) :
    lookupPending (removePending l k) k = Option.none := by
  have h : (removePending l k).find? (fun e => e.1 == k) = Option.none := by
    rw [List.find?_eq_none]
    intro a ha hcontra
    have h2 := (List.mem_filter.mp ha).2
    rw [hcontra] at h2
    simp at h2
  simp [lookupPending, h]

/-- After `subscriber.save()` (modelled as an in-place replacement keyed
by the mongo id), looking the subscriber up by its id yields the saved
version, provided the id was present before. -/
theorem findSubscriber_saveSubscriber (l : List SubscriberRec) (s old : SubscriberRec)
    (h : findSubscriber l s.mongoId = Option.some old) :
    findSubscriber (saveSubscriber l s) s.mongoId = Option.some s := by
  induction l with
  | nil => simp [findSubscriber] at h
  | cons t ts ih =>
    by_cases ht : t.mongoId = s.mongoId
    · simp [findSubscriber, saveSubscriber, List.find?, ht]
    · have ht1 : (t.mongoId == s.mongoId) = false := by
        simp [ht]
      simp only [findSubscriber, saveSubscriber, List.map_cons, List.find?, ht1,
        if_false, Bool.false_eq_true] at h ⊢
      exact ih h

/-- Claim C4 (counterexample): a pending checkout for an inactive
subscriber with original end date D = 1000 and a 1-month plan, confirmed
at now = 2000 and redelivered with the identical confirmation: the final
end date is `now + 1 month` = 2030, not `D + 1 month` = 1030 — the code
resets the window from the confirmation instant instead of extending the
stored end date. -/
theorem C4_counterexample :
    (mpesaCallback linearAddMonths 2000 (CallbackInput.mk 0 "CRQ1" 10 "RCPT9")
        ((mpesaCallback linearAddMonths 2000 (CallbackInput.mk 0 "CRQ1" 10 "RCPT9")
          (AppState.mk [("CRQ1", "S1")]
            [SubscriberRec.mk "S1" "sub1" "" "P1" 900 1000 SubStatus.inactive]
            [Plan.mk "P1" 1] [] (Device.mk 0 true []))).2)).2.subscribers.map
      SubscriberRec.subscriptionEndDate = [2030] ∧
    linearAddMonths 1000 1 = 1030 ∧ ((2030 : Int) = 1030 → False) := by
  decide

/-- Claim C4 (amended): processing a successful confirmation for a
non-active subscriber consumes the correlation entry and RESETS the
entitlement window: both the start and the end date become
`now + plan duration` (the previous end date is discarded, so the window
is not extended by the plan's duration).  Feeding the identical
confirmation again finds no correlation entry and is rejected with a 400
without touching any state, so the window is rewritten exactly once. -/
theorem C4_window_reset_exactly_once (addMonths : Int → Nat → Int) (now : Int)
    (inp : CallbackInput) (st : AppState) (sid : String) (sub : SubscriberRec) (plan : Plan)
    (h0 : inp.resultCode = 0)
    (h1 : lookupPending st.pendingCheckouts inp.checkoutRequestId = Option.some sid)
    (h2 : findSubscriber st.subscribers sid = Option.some sub)
    (h3 : sub.status ≠ SubStatus.active)
    (h4 : findPlan st.plans sub.servicePlan = Option.some plan)
    (h5 : sub.ipAddress = "") :
    ∃ st1, mpesaCallback addMonths now inp st = (CbResponse.ack, st1) ∧
      findSubscriber st1.subscribers sid =
        Option.some (SubscriberRec.mk sub.mongoId sub.subscriberId sub.ipAddress
          sub.servicePlan (addMonths now plan.durationInMonths)
          (addMonths now plan.durationInMonths) SubStatus.active) ∧
      lookupPending st1.pendingCheckouts inp.checkoutRequestId = Option.none ∧
      mpesaCallback addMonths now inp st1 = (CbResponse.badRequest, st1) := by
  have hsid : sub.mongoId = sid := by
    have h2a : List.find? (fun s => s.mongoId == sid) st.subscribers = Option.some sub := h2
    have hfound := List.find?_some h2a
    exact eq_of_beq hfound
  refine ⟨AppState.mk (removePending st.pendingCheckouts inp.checkoutRequestId)
    (saveSubscriber st.subscribers
      (SubscriberRec.mk sub.mongoId sub.subscriberId sub.ipAddress sub.servicePlan
        (addMonths now plan.durationInMonths) (addMonths now plan.durationInMonths)
        SubStatus.active))
    st.plans (st.billings ++ [BillingRec.mk sid inp.amount inp.mpesaReceiptNumber])
    st.dev, ?_, ?_, ?_, ?_⟩
  · simp [mpesaCallback, h0, h1, h2, h3, h4, h5]
  · have hfind : findSubscriber st.subscribers
        (SubscriberRec.mk sub.mongoId sub.subscriberId sub.ipAddress sub.servicePlan
          (addMonths now plan.durationInMonths) (addMonths now plan.durationInMonths)
          SubStatus.active).mongoId = Option.some sub := by
      simpa [hsid] using h2
    have hres := findSubscriber_saveSubscriber st.subscribers
      (SubscriberRec.mk sub.mongoId sub.subscriberId sub.ipAddress sub.servicePlan
        (addMonths now plan.durationInMonths) (addMonths now plan.durationInMonths)
        SubStatus.active) sub hfind
    simpa [hsid] using hres
  · simpa using lookupPending_removePending st.pendingCheckouts inp.checkoutRequestId
  · have hmiss := lookupPending_removePending st.pendingCheckouts inp.checkoutRequestId
    simp [mpesaCallback, h0, hmiss]

/-- Claim C4 witness: the amended theorem applied to the concrete
scenario of the counterexample (inactive subscriber, 1-month plan,
confirmation at now = 2000). -/
theorem C4_window_reset_exactly_once_witness :
    ∃ st1, mpesaCallback linearAddMonths 2000 (CallbackInput.mk 0 "CRQ1" 10 "RCPT9")
        (AppState.mk [("CRQ1", "S1")]
          [SubscriberRec.mk "S1" "sub1" "" "P1" 900 1000 SubStatus.inactive]
          [Plan.mk "P1" 1] [] (Device.mk 0 true [])) = (CbResponse.ack, st1) ∧
      findSubscriber st1.subscribers "S1" =
        Option.some (SubscriberRec.mk "S1" "sub1" "" "P1" (linearAddMonths 2000 1)
          (linearAddMonths 2000 1) SubStatus.active) ∧
      lookupPending st1.pendingCheckouts "CRQ1" = Option.none ∧
      mpesaCallback linearAddMonths 2000 (CallbackInput.mk 0 "CRQ1" 10 "RCPT9") st1 =
        (CbResponse.badRequest, st1) :=
  C4_window_reset_exactly_once linearAddMonths 2000 (CallbackInput.mk 0 "CRQ1" 10 "RCPT9")
    (AppState.mk [("CRQ1", "S1")]
      [SubscriberRec.mk "S1" "sub1" "" "P1" 900 1000 SubStatus.inactive]
      [Plan.mk "P1" 1] [] (Device.mk 0 true []))
    "S1" (SubscriberRec.mk "S1" "sub1" "" "P1" 900 1000 SubStatus.inactive) (Plan.mk "P1" 1)
    rfl (by decide) (by decide) (by decide) (by decide) rfl

/-- Claim C5 (counterexample): deleting a subscriber whose block rule is
currently installed (one copy) makes the handler issue an unblock: the
rule count drops from 1 to 0, so the removed subscriber ends with full
access rather than being forced to blocked. -/
theorem C5_counterexample :
    deleteSubscriberHandler
      (Option.some (SubscriberRec.mk "S1" "sub1" "1.2.3.4" "P1" 0 1000 SubStatus.inactive))
      (Device.mk 1 true []) = (DeleteResp.ok, Device.mk 0 true [], true) := by
  decide

/-- Claim C5 (amended): the subscriber-deletion handler issues an
unblock (a remove-rule command), never a block: on a healthy device the
rule count decreases by one (or stays at zero), leaving the removed
subscriber's address unblocked. -/
theorem C5_delete_unblocks (sub : SubscriberRec) (d : Device)
    (h1 : d.outages = []) (h2 : d.applyOk = true) (h3 : sub.ipAddress ≠ "") :
    deleteSubscriberHandler (Option.some sub) d =
      (DeleteResp.ok, Device.mk (d.ruleCount - 1) true [], true) := by
  obtain ⟨cnt, aok, outs⟩ := d
  simp only at h1 h2
  subst h1; subst h2
  cases cnt with
  | zero => simp [deleteSubscriberHandler, unblockClient, deleteBlockRule, execCmd, h3]
  | succ n => simp [deleteSubscriberHandler, unblockClient, deleteBlockRule, execCmd, h3]

/-- Claim C5 witness: the amended theorem applied to a subscriber with a
set address and one installed rule copy. -/
theorem C5_delete_unblocks_witness :
    deleteSubscriberHandler
      (Option.some (SubscriberRec.mk "S1" "sub1" "1.2.3.4" "P1" 0 1000 SubStatus.inactive))
      (Device.mk 1 true []) =
      (DeleteResp.ok, Device.mk ((Device.mk 1 true []).ruleCount - 1) true [], true) :=
  C5_delete_unblocks (SubscriberRec.mk "S1" "sub1" "1.2.3.4" "P1" 0 1000 SubStatus.inactive)
    (Device.mk 1 true []) rfl rfl (by decide)

/-- Claim C6 (counterexample): a successful confirmation whose checkout
request id has no correlation entry is answered with an HTTP 400
rejection, not with the fixed success acknowledgment. -/
theorem C6_counterexample :
    mpesaCallback linearAddMonths 0 (CallbackInput.mk 0 "CRQ9" 5 "R1")
      (AppState.mk [] [] [] [] (Device.mk 0 true [])) =
      (CbResponse.badRequest, AppState.mk [] [] [] [] (Device.mk 0 true [])) ∧
    CbResponse.badRequest ≠ CbResponse.ack := by
  decide

/-- Claim C6 (amended): an unmatched confirmation (correlation miss) is
answered with an HTTP 400 error, not the fixed acknowledgment — though it
does apply no state change; the handler returns the fixed acknowledgment
only on non-zero result codes or fully successful processing, and a 500
on internal failure. -/
theorem C6_correlation_miss_rejected (addMonths : Int → Nat → Int) (now : Int)
    (inp : CallbackInput) (st : AppState)
    (h0 : inp.resultCode = 0)
    (h1 : lookupPending st.pendingCheckouts inp.checkoutRequestId = Option.none) :
    mpesaCallback addMonths now inp st = (CbResponse.badRequest, st) := by
  simp [mpesaCallback, h0, h1]

/-- Claim C6 witness: the amended theorem applied to an empty correlation
store. -/
theorem C6_correlation_miss_rejected_witness :
    mpesaCallback linearAddMonths 0 (CallbackInput.mk 0 "CRQ9" 5 "R1")
      (AppState.mk [] [] [] [] (Device.mk 0 true [])) =
      (CbResponse.badRequest, AppState.mk [] [] [] [] (Device.mk 0 true [])) :=
  C6_correlation_miss_rejected linearAddMonths 0 (CallbackInput.mk 0 "CRQ9" 5 "R1")
    (AppState.mk [] [] [] [] (Device.mk 0 true [])) rfl (by decide)

/-- Claim C8 (counterexample): the address `1.2.3.4; reboot` fails the
spec's allow-list, yet the existence-check command embeds it verbatim —
the injected text reaches the remote shell command; nothing rejects it. -/
theorem C8_counterexample :
    specValidAddr "1.2.3.4; reboot" = false ∧
    checkCommand "1.2.3.4; reboot" "c1" =
      "iptables -C INPUT -s 1.2.3.4; reboot -m comment --comment \"block-c1\" -j DROP" := by
  decide

/-- Claim C8 (amended): no validation of the address or the identifier
exists anywhere in networkControl.js: every string — allow-listed or not
— is embedded verbatim into each of the three command templates (each
command decomposes as prefix ++ parameter ++ suffix for both
parameters). -/
theorem C8_params_embedded_verbatim (ip clientId : String) :
    (∃ pre suf, checkCommand ip clientId = pre ++ (ip ++ suf)) ∧
    (∃ pre suf, checkCommand ip clientId = pre ++ (clientId ++ suf)) ∧
    (∃ pre suf, addCommand ip clientId = pre ++ (ip ++ suf)) ∧
    (∃ pre suf, addCommand ip clientId = pre ++ (clientId ++ suf)) ∧
    (∃ pre suf, delCommand ip clientId = pre ++ (ip ++ suf)) ∧
    (∃ pre suf, delCommand ip clientId = pre ++ (clientId ++ suf)) := by
  refine ⟨⟨"iptables -C INPUT -s ", _, rfl⟩,
    ⟨"iptables -C INPUT -s " ++ (ip ++ " -m comment --comment \"block-"),
      "\" -j DROP", ?_⟩,
    ⟨"iptables -A INPUT -s ", _, rfl⟩,
    ⟨"iptables -A INPUT -s " ++ (ip ++ " -m comment --comment \"block-"),
      "\" -j DROP", ?_⟩,
    ⟨"iptables -D INPUT -s ", _, rfl⟩,
    ⟨"iptables -D INPUT -s " ++ (ip ++ " -m comment --comment \"block-"),
      "\" -j DROP", ?_⟩⟩ <;>
  simp [checkCommand, addCommand, delCommand, String.append_assoc]

/-- Claim C9 (counterexample): two concurrent `setNetworkAccess` calls
for the same expired subscriber on an initially rule-free healthy device,
scheduled probe-probe-apply-apply: both probes observe "absent", both
calls issue an add-block, and the device ends with two copies of the rule
— two corrective commands for one mismatch, a duplicate add pair. -/
theorem C9_counterexample :
    runSched (Client.mk "1.2.3.4" "c1" 0) 100 [false, true, false, true]
      (Phase.start, Phase.start, Device.mk 0 true []) =
      (Phase.finished Action.blocked, Phase.finished Action.blocked, Device.mk 2 true []) := by
  decide

/-- Claim C9 (amended): nothing serializes reconciliation per subscriber
key: whenever desired is blocked and the rule is absent on a healthy
device, the interleaving that runs both probes before either apply makes
both concurrent calls issue an add-block, leaving two rule copies (two
corrective commands, not exactly one). -/
theorem C9_concurrent_duplicate_add (c : Client) (now : Int) (d : Device)
    (h1 : d.outages = []) (h2 : d.applyOk = true) (h3 : d.ruleCount = 0)
    (h4 : shouldBlock c now = true) :
    runSched c now [false, true, false, true] (Phase.start, Phase.start, d) =
      (Phase.finished Action.blocked, Phase.finished Action.blocked, Device.mk 2 true []) := by
  obtain ⟨cnt, aok, outs⟩ := d
  simp only at h1 h2 h3
  subst h1; subst h2; subst h3
  simp [runSched, stepTask, ruleExists, execCmd, blockClient, addBlockRule, h4]

/-- Claim C9 witness: the amended theorem applied to an expired
subscriber and an empty healthy device. -/
theorem C9_concurrent_duplicate_add_witness :
    runSched (Client.mk "1.2.3.4" "c1" 0) 100 [false, true, false, true]
      (Phase.start, Phase.start, Device.mk 0 true []) =
      (Phase.finished Action.blocked, Phase.finished Action.blocked, Device.mk 2 true []) :=
  C9_concurrent_duplicate_add (Client.mk "1.2.3.4" "c1" 0) 100 (Device.mk 0 true [])
    rfl rfl rfl (by decide)

/-- Claim C10 (confirmed): a successful confirmation whose subscriber is
already `active` appends exactly one billing record and consumes the
pending entry, but leaves the subscriber collection (dates and status)
and the remote device untouched — no unblock command is issued — and
returns the fixed acknowledgment. -/
theorem C10_active_subscriber_frame (addMonths : Int → Nat → Int) (now : Int)
    (inp : CallbackInput) (st : AppState) (sid : String) (sub : SubscriberRec)
    (h0 : inp.resultCode = 0)
    (h1 : lookupPending st.pendingCheckouts inp.checkoutRequestId = Option.some sid)
    (h2 : findSubscriber st.subscribers sid = Option.some sub)
    (h3 : sub.status = SubStatus.active) :
    mpesaCallback addMonths now inp st =
      (CbResponse.ack,
        AppState.mk (removePending st.pendingCheckouts inp.checkoutRequestId)
          st.subscribers st.plans
          (st.billings ++ [BillingRec.mk sid inp.amount inp.mpesaReceiptNumber]) st.dev) := by
  simp [mpesaCallback, h0, h1, h2, h3]

/-- Claim C10 witness: the theorem applied to an active subscriber with a
matching pending checkout. -/
theorem C10_active_subscriber_frame_witness :
    mpesaCallback linearAddMonths 2000 (CallbackInput.mk 0 "CRQ1" 10 "RCPT9")
      (AppState.mk [("CRQ1", "S1")]
        [SubscriberRec.mk "S1" "sub1" "1.2.3.4" "P1" 900 5000 SubStatus.active]
        [Plan.mk "P1" 1] [] (Device.mk 1 true [])) =
      (CbResponse.ack,
        AppState.mk (removePending [("CRQ1", "S1")] "CRQ1")
          [SubscriberRec.mk "S1" "sub1" "1.2.3.4" "P1" 900 5000 SubStatus.active]
          [Plan.mk "P1" 1]
          ([] ++ [BillingRec.mk "S1" 10 "RCPT9"]) (Device.mk 1 true [])) :=
  C10_active_subscriber_frame linearAddMonths 2000 (CallbackInput.mk 0 "CRQ1" 10 "RCPT9")
    (AppState.mk [("CRQ1", "S1")]
      [SubscriberRec.mk "S1" "sub1" "1.2.3.4" "P1" 900 5000 SubStatus.active]
      [Plan.mk "P1" 1] [] (Device.mk 1 true []))
    "S1" (SubscriberRec.mk "S1" "sub1" "1.2.3.4" "P1" 900 5000 SubStatus.active)
    rfl (by decide) (by decide) rfl

end NCS
